import Mathlib

/-!
Shallow embedding of the `polls` Django application
(`src/mysite/polls/views.py`) of the Polls_dj repository.

The data store holds `Question` and `Choice` rows; the five request
handlers (`IndexView.get_queryset`, `DetailView.get_queryset`, `vote`,
`create`, `create_answer`) are embedded as pure functions from an
explicit store (plus the request data and the current time) to a
response together with the resulting store.  A handler that lets a
Python exception escape (Django's `MultiValueDictKeyError` on a missing
form field) is modelled as `Except.error Err.keyError`; an `Http404`
raised by `get_object_or_404` is rendered by the framework as a 404
response, hence modelled as the ordinary response `Response.notFound`.
-/

namespace Polls

/-- A `Question` row: primary key, text, publish timestamp
(timestamps are modelled as integers). -/
structure Question where
  id : Nat
  question_text : String
  pub_date : Int
deriving Repr, DecidableEq

/-- A `Choice` row: primary key, owning question's key, text, vote count. -/
structure Choice where
  id : Nat
  question_id : Nat
  choice_text : String
  votes : Nat
deriving Repr, DecidableEq

/-- The data store: the `Question` and `Choice` tables, as row lists. -/
structure Store where
  questions : List Question
  choices : List Choice
deriving Repr, DecidableEq

/-- An HTTP request method, as tested by `request.method == 'POST'`. -/
inductive Method where
  | get
  | post
deriving Repr, DecidableEq

/-- An uncaught Python exception escaping a handler.  `keyError` is the
`MultiValueDictKeyError` raised by `request.POST[...]` on a missing form
field. -/
inductive Err where
  | keyError
deriving Repr, DecidableEq

/-- The observable responses of the handlers in `views.py`:
renders of the named templates with their context, and redirects. -/
inductive Response where
  | notFound
  | renderDetail (question_id : Nat) (error_message : Option String)
  | renderDetailTooMuch (question_id : Nat) (message_too_much : String)
  | renderCreate (message : Option String)
  | renderCreateAnswer (question_id : Nat) (message : Option String)
  | redirectResults (question_id : Nat)
  | redirectIndex
  | redirectDetail (question_id : Nat)
deriving Repr, DecidableEq

instance {ε α : Type} [DecidableEq ε] [DecidableEq α] : DecidableEq (Except ε α) :=
  fun a b =>
    match a, b with
    | Except.error x, Except.error y =>
        if h : x = y then isTrue (congrArg Except.error h)
        else isFalse (fun hc => h (Except.error.inj hc))
    | Except.ok x, Except.ok y =>
        if h : x = y then isTrue (congrArg Except.ok h)
        else isFalse (fun hc => h (Except.ok.inj hc))
    | Except.error _, Except.ok _ => isFalse (fun hc => Except.noConfusion hc)
    | Except.ok _, Except.error _ => isFalse (fun hc => Except.noConfusion hc)

/-- Embedding of Python's `str.strip()` as used by the handlers (`.strip()`
on the submitted text): drop leading and trailing whitespace characters. -/
def strip (t : String) : String :=
  String.mk (((t.data.dropWhile Char.isWhitespace).reverse.dropWhile
    Char.isWhitespace).reverse)

/-- A store is well formed when primary keys are unique, as the
database guarantees. -/
def Store.wf (s : Store) : Prop :=
  (s.questions.map Question.id).Nodup ∧ (s.choices.map Choice.id).Nodup

instance (s : Store) : Decidable s.wf := by
  unfold Store.wf; infer_instance

/-- Stable descending insertion of a question into a list already sorted
by descending `pub_date`: the embedding of the ordering produced by
`order_by('-pub_date')`. -/
def insertDesc (q : Question) : List Question → List Question
  | [] => [q]
  | x :: xs => if x.pub_date ≤ q.pub_date then q :: x :: xs else x :: insertDesc q xs

/-- Stable sort by descending `pub_date` (`order_by('-pub_date')`). -/
def orderByPubDateDesc : List Question → List Question
  | [] => []
  | x :: xs => insertDesc x (orderByPubDateDesc xs)

namespace IndexView

/-- `IndexView.get_queryset` (views.py lines 14-21):
`Question.objects.filter(pub_date__lte=timezone.now()).order_by('-pub_date')[:5]`.
A read-only query: it takes the store and returns a row list, leaving
the store untouched. -/
def get_queryset (s : Store) (now : Int) : List Question :=
  (orderByPubDateDesc (s.questions.filter (fun q => q.pub_date ≤ now))).take 5

end IndexView

namespace DetailView

/-- `DetailView.get_queryset` combined with the pk lookup that
`generic.DetailView` performs on it (views.py lines 28-33):
`Question.objects.filter(pub_date__lte=timezone.now())` then `get(pk=qid)`.
`none` is the `Http404` case.  Read-only. -/
def get_queryset (s : Store) (now : Int) (qid : Nat) : Option Question :=
  (s.questions.filter (fun q => q.pub_date ≤ now)).find? (fun q => q.id == qid)

end DetailView

/-- `get_object_or_404(Question, pk=question_id)`: pk lookup over the
whole `Question` table, with no publish-date filter. -/
def getQuestionOr404 (s : Store) (qid : Nat) : Option Question :=
  s.questions.find? (fun q => q.id == qid)

/-- `question.choice_set.get(pk=cid)`: pk lookup among the choices that
belong to `question`; `none` is `Choice.DoesNotExist`. -/
def choiceSetGet (s : Store) (q : Question) (cid : Nat) : Option Choice :=
  s.choices.find? (fun c => c.id == cid && c.question_id == q.id)

/-- `obj.save()` on a `Choice`: the row whose pk matches is overwritten
with the in-handler object's fields. -/
def saveChoice (s : Store) (c : Choice) : Store :=
  { s with choices := s.choices.map (fun x => if x.id == c.id then c else x) }

/-- The vote count currently stored for choice pk `cid`, if the row exists. -/
def getVotes (s : Store) (cid : Nat) : Option Nat :=
  (s.choices.find? (fun c => c.id == cid)).map Choice.votes

/-- `vote` (views.py lines 41-55).  `choice` is `request.POST['choice']`
parsed as a pk, `none` when the field is absent (the `KeyError` branch
of the handler's own `try`/`except`, hence caught, never escaping). -/
def vote (s : Store) (question_id : Nat) (choice : Option Nat) :
    Except Err (Response × Store) :=
  match getQuestionOr404 s question_id with
  | none => Except.ok (Response.notFound, s)
  | some question =>
    match choice.bind (fun cid => choiceSetGet s question cid) with
    | none =>
      Except.ok (Response.renderDetail question.id (some "You didn't select a choice."), s)
    | some selected_choice =>
      Except.ok (Response.redirectResults question.id,
        saveChoice s { selected_choice with votes := selected_choice.votes + 1 })

/-- `create` (views.py lines 58-68).  `new_question` is
`request.POST['new_question']`, `none` when the field is absent (in
which case the subscript raises and the exception escapes the handler).
`fresh_id` is the pk the store assigns to a newly inserted row. -/
def create (s : Store) (method : Method) (new_question : Option String)
    (now : Int) (fresh_id : Nat) : Except Err (Response × Store) :=
  match method with
  | Method.post =>
    match new_question with
    | none => Except.error Err.keyError
    | some text =>
      if strip text = "" then
        Except.ok (Response.renderCreate (some "You didn't enter a question."), s)
      else
        Except.ok (Response.redirectIndex,
          { s with questions :=
              s.questions ++ [{ id := fresh_id, question_text := text, pub_date := now }] })
  | Method.get => Except.ok (Response.renderCreate none, s)

/-- Modelled from the spec: `Question.answer_count` lives in the
repository's `models.py`, which is not among the provided sources; per
the spec's invariant "a Question may have at most 3 Choices" and §4.5
("If the Question already has 3 Choices"), it is the number of `Choice`
rows owned by the question. -/
def answer_count (s : Store) (question_id : Nat) : Nat :=
  (s.choices.filter (fun c => c.question_id == question_id)).length

/-- `create_answer` (views.py lines 71-88).  `new_answer` is
`request.POST['new_answer']`, `none` when the field is absent (the
subscript then raises and the exception escapes the handler). -/
def create_answer (s : Store) (question_id : Nat) (method : Method)
    (new_answer : Option String) (fresh_id : Nat) : Except Err (Response × Store) :=
  match getQuestionOr404 s question_id with
  | none => Except.ok (Response.notFound, s)
  | some question =>
    if answer_count s question.id < 3 then
      match method with
      | Method.post =>
        match new_answer with
        | none => Except.error Err.keyError
        | some text =>
          if strip text = "" then
            Except.ok (Response.renderCreateAnswer question.id
              (some "You didn't enter an answer."), s)
          else
            Except.ok (Response.redirectDetail question.id,
              { s with choices :=
                  s.choices ++ [{ id := fresh_id, question_id := question.id,
                                  choice_text := text, votes := 0 }] })
      | Method.get => Except.ok (Response.renderCreateAnswer question.id none, s)
    else
      Except.ok (Response.renderDetailTooMuch question.id
        "You can't add moore than 3 answers.", s)

/-- The questions whose stored text equals `t`
(`Question.objects.filter(question_text=t)`). -/
def questionsByText (s : Store) (t : String) : List Question :=
  s.questions.filter (fun q => q.question_text == t)

/-! Helper lemmas about the descending sort. -/

theorem mem_insertDesc (a q : Question) (l : List Question) :
    a ∈ insertDesc q l ↔ a = q ∨ a ∈ l := by
  induction l with
  | nil => simp [insertDesc]
  | cons x xs ih =>
    by_cases h : x.pub_date ≤ q.pub_date
    · simp [insertDesc, h]
    · simp only [insertDesc, if_neg h, List.mem_cons, ih]
      tauto

theorem pairwise_insertDesc (q : Question) (l : List Question)
    (h : l.Pairwise (fun a b => b.pub_date ≤ a.pub_date)) :
    (insertDesc q l).Pairwise (fun a b => b.pub_date ≤ a.pub_date) := by
  induction l with
  | nil => simp [insertDesc]
  | cons x xs ih =>
    rcases List.pairwise_cons.mp h with ⟨hx, hxs⟩
    by_cases hle : x.pub_date ≤ q.pub_date
    · rw [insertDesc, if_pos hle]
      refine List.pairwise_cons.mpr ⟨?_, h⟩
      intro b hb
      rcases List.mem_cons.mp hb with rfl | hb2
      · exact hle
      · exact le_trans (hx b hb2) hle
    · rw [insertDesc, if_neg hle]
      refine List.pairwise_cons.mpr ⟨?_, ih hxs⟩
      intro b hb
      rcases (mem_insertDesc b q xs).mp hb with rfl | hb2
      · omega
      · exact hx b hb2

theorem sorted_orderByPubDateDesc (l : List Question) :
    (orderByPubDateDesc l).Pairwise (fun a b => b.pub_date ≤ a.pub_date) := by
  induction l with
  | nil => simp [orderByPubDateDesc]
  | cons x xs ih => exact pairwise_insertDesc x (orderByPubDateDesc xs) ih

theorem mem_orderByPubDateDesc (a : Question) (l : List Question) :
    a ∈ orderByPubDateDesc l ↔ a ∈ l := by
  induction l with
  | nil => simp [orderByPubDateDesc]
  | cons x xs ih =>
    simp only [orderByPubDateDesc, mem_insertDesc, ih, List.mem_cons]

/-! Helper lemmas about pk lookups in well-formed stores. -/

theorem find?_key_unique {α : Type} (key : α → Nat) (l : List α)
    (hnd : (l.map key).Nodup) (a : α) (ha : a ∈ l) :
    l.find? (fun x => key x == key a) = some a := by
  induction l with
  | nil => cases ha
  | cons x xs ih =>
    rw [List.map_cons, List.nodup_cons] at hnd
    rcases hnd with ⟨hx, hxs⟩
    rcases List.mem_cons.mp ha with rfl | hmem
    · simp [List.find?]
    · have hne : key x ≠ key a := by
        intro hcontra
        exact hx (hcontra ▸ List.mem_map_of_mem key hmem)
      have hfalse : (key x == key a) = false := by
        simpa using hne
      simp only [List.find?, hfalse]
      exact ih hxs hmem

theorem eq_of_mem_key_eq {α : Type} (key : α → Nat) (l : List α)
    (hnd : (l.map key).Nodup) (a b : α) (ha : a ∈ l) (hb : b ∈ l)
    (hkey : key a = key b) : a = b := by
  have h1 : l.find? (fun x => key x == key a) = some a := find?_key_unique key l hnd a ha
  have h2 : l.find? (fun x => key x == key b) = some b := find?_key_unique key l hnd b hb
  rw [hkey] at h1
  rw [h1] at h2
  exact Option.some.inj h2

/-! Helper lemmas about `saveChoice`. -/

theorem find?_overwrite_hit (l : List Choice) (c c0 : Choice)
    (hfound : l.find? (fun x => x.id == c.id) = some c0) :
    (l.map (fun x => if x.id == c.id then c else x)).find? (fun x => x.id == c.id) = some c := by
  induction l with
  | nil => simp [List.find?] at hfound
  | cons x xs ih =>
    by_cases hx : (x.id == c.id) = true
    · rw [List.map_cons, if_pos hx]
      exact List.find?_cons_of_pos (p := fun y : Choice => y.id == c.id) _ (by simp)
    · rw [List.find?_cons_of_neg (p := fun y : Choice => y.id == c.id) _ hx] at hfound
      rw [List.map_cons, if_neg hx, List.find?_cons_of_neg (p := fun y : Choice => y.id == c.id) _ hx]
      exact ih hfound

theorem find?_overwrite_other (l : List Choice) (c : Choice) (cid2 : Nat)
    (hne : cid2 ≠ c.id) :
    (l.map (fun x => if x.id == c.id then c else x)).find? (fun x => x.id == cid2) =
      l.find? (fun x => x.id == cid2) := by
  induction l with
  | nil => simp
  | cons x xs ih =>
    by_cases hx : (x.id == c.id) = true
    · have hxid : x.id = c.id := by
        simpa using hx
      have hskipc : ¬ ((c.id == cid2) = true) := by
        simp [Ne.symm hne]
      have hskipx : ¬ ((x.id == cid2) = true) := by
        simp [hxid, Ne.symm hne]
      rw [List.map_cons, if_pos hx, List.find?_cons_of_neg (p := fun y : Choice => y.id == cid2) _ hskipc,
        List.find?_cons_of_neg (p := fun y : Choice => y.id == cid2) _ hskipx]
      exact ih
    · rw [List.map_cons, if_neg hx]
      by_cases hmatch : (x.id == cid2) = true
      · rw [List.find?_cons_of_pos (p := fun y : Choice => y.id == cid2) _ hmatch,
          List.find?_cons_of_pos (p := fun y : Choice => y.id == cid2) _ hmatch]
      · rw [List.find?_cons_of_neg (p := fun y : Choice => y.id == cid2) _ hmatch,
          List.find?_cons_of_neg (p := fun y : Choice => y.id == cid2) _ hmatch]
        exact ih

theorem getVotes_saveChoice_hit (s : Store) (c c0 : Choice)
    (hfound : s.choices.find? (fun x => x.id == c.id) = some c0) :
    getVotes (saveChoice s c) c.id = some c.votes := by
  unfold getVotes saveChoice
  rw [find?_overwrite_hit s.choices c c0 hfound]
  rfl

theorem getVotes_saveChoice_other (s : Store) (c : Choice) (cid2 : Nat)
    (hne : cid2 ≠ c.id) :
    getVotes (saveChoice s c) cid2 = getVotes s cid2 := by
  unfold getVotes saveChoice
  rw [find?_overwrite_other s.choices c cid2 hne]

/-! Sample rows, used by the witnesses: the store of the repository's own
test scenarios (a past and a future question, the first with the two
choices "Fine" and "Good"). -/

def sampleQ1 : Question := { id := 1, question_text := "Past question.", pub_date := -30 }

def sampleQ2 : Question := { id := 2, question_text := "Future question.", pub_date := 30 }

def sampleC1 : Choice := { id := 1, question_id := 1, choice_text := "Fine", votes := 0 }

def sampleC2 : Choice := { id := 2, question_id := 1, choice_text := "Good", votes := 0 }

def sampleStore : Store :=
  { questions := [sampleQ1, sampleQ2], choices := [sampleC1, sampleC2] }

/-- Claim C5: for every store state and every now timestamp, the question
listing `IndexView.get_queryset` returns at most 5 questions, contains only
stored questions whose publish timestamp is ≤ now (never one with a future
publish timestamp), and is ordered descending by publish timestamp.  It is
a pure query over the store, so it has no side effects. -/
theorem index_listing_spec (s : Store) (now : Int) :
    (IndexView.get_queryset s now).length ≤ 5 ∧
    (∀ q ∈ IndexView.get_queryset s now, q.pub_date ≤ now ∧ q ∈ s.questions) ∧
    (IndexView.get_queryset s now).Pairwise (fun a b => b.pub_date ≤ a.pub_date) := by
  refine ⟨?_, ?_, ?_⟩
  · unfold IndexView.get_queryset
    rw [List.length_take]
    exact Nat.min_le_left _ _
  · intro q hq
    unfold IndexView.get_queryset at hq
    have hq2 : q ∈ orderByPubDateDesc (s.questions.filter (fun q => q.pub_date ≤ now)) :=
      List.mem_of_mem_take hq
    have hq3 : q ∈ s.questions.filter (fun q => q.pub_date ≤ now) :=
      (mem_orderByPubDateDesc q _).mp hq2
    rcases List.mem_filter.mp hq3 with ⟨hmem, hpub⟩
    exact ⟨by simpa using hpub, hmem⟩
  · unfold IndexView.get_queryset
    exact (sorted_orderByPubDateDesc _).sublist (List.take_sublist 5 _)

/-- Witness for C5 at the sample store: the past question is listed, is a
stored question, and its publish timestamp is ≤ now. -/
theorem index_listing_spec_witness :
    sampleQ1.pub_date ≤ 0 ∧ sampleQ1 ∈ sampleStore.questions :=
  (index_listing_spec sampleStore 0).2.1 sampleQ1 (by decide)

/-- Claim C6: for every question id, the detail lookup
`DetailView.get_queryset` returns the question exactly when it exists and
its publish timestamp is ≤ now; otherwise (unknown id or future publish
timestamp) it yields `none`, Django's `Http404`.  It is a pure query over
the store, so it performs no mutation. -/
theorem detail_lookup_spec (s : Store) (now : Int) (qid : Nat)
    (hwf : (s.questions.map Question.id).Nodup) :
    (∀ q : Question, DetailView.get_queryset s now qid = some q ↔
       q ∈ s.questions ∧ q.id = qid ∧ q.pub_date ≤ now) ∧
    (DetailView.get_queryset s now qid = none ↔
       ∀ q ∈ s.questions, q.id = qid → ¬ q.pub_date ≤ now) := by
  constructor
  · intro q
    constructor
    · intro h
      have hpred := List.find?_some h
      have hmem := List.mem_of_find?_eq_some h
      rcases List.mem_filter.mp hmem with ⟨hq, hpub⟩
      exact ⟨hq, by simpa using hpred, by simpa using hpub⟩
    · rintro ⟨hmem, hid, hpub⟩
      subst hid
      have hsub : List.Sublist ((s.questions.filter (fun q => q.pub_date ≤ now)).map Question.id)
          (s.questions.map Question.id) :=
        (List.filter_sublist s.questions).map Question.id
      have hnd2 := List.Nodup.sublist hsub hwf
      exact find?_key_unique Question.id _ hnd2 q
        (List.mem_filter.mpr ⟨hmem, by simpa using hpub⟩)
  · rw [DetailView.get_queryset, List.find?_eq_none]
    constructor
    · intro h q hq hid hpub
      have hq2 : q ∈ s.questions.filter (fun q => q.pub_date ≤ now) :=
        List.mem_filter.mpr ⟨hq, by simpa using hpub⟩
      exact h q hq2 (by simpa using hid)
    · intro h x hx
      rcases List.mem_filter.mp hx with ⟨hmem, hpub⟩
      intro heq
      exact h x hmem (by simpa using heq) (by simpa using hpub)

/-- Witness for C6 at the sample store: the past question is returned by the
detail lookup, and the future question's id yields `none` there. -/
theorem detail_lookup_spec_witness :
    DetailView.get_queryset sampleStore 0 1 = some sampleQ1 ∧
    DetailView.get_queryset sampleStore 0 2 = none :=
  ⟨((detail_lookup_spec sampleStore 0 1 (by decide)).1 sampleQ1).mpr
      ⟨by decide, rfl, by decide⟩,
    (detail_lookup_spec sampleStore 0 2 (by decide)).2.mpr (by decide)⟩

/-! Branch evaluation lemmas for `vote` and `create_answer`. -/

theorem vote_eval_noChoice (s : Store) (qid : Nat) (q : Question) (choice : Option Nat)
    (hq : getQuestionOr404 s qid = some q)
    (hbind : choice.bind (fun cid => choiceSetGet s q cid) = none) :
    vote s qid choice =
      Except.ok (Response.renderDetail q.id (some "You didn't select a choice."), s) := by
  simp only [vote, hq]
  rw [hbind]

theorem vote_eval_selected (s : Store) (qid : Nat) (q : Question) (choice : Option Nat)
    (c : Choice) (hq : getQuestionOr404 s qid = some q)
    (hbind : choice.bind (fun cid => choiceSetGet s q cid) = some c) :
    vote s qid choice =
      Except.ok (Response.redirectResults q.id,
        saveChoice s { c with votes := c.votes + 1 }) := by
  simp only [vote, hq]
  rw [hbind]

theorem create_answer_eval_full (s : Store) (qid : Nat) (q : Question)
    (m : Method) (txt : Option String) (fid : Nat)
    (hq : getQuestionOr404 s qid = some q)
    (h3 : ¬ answer_count s q.id < 3) :
    create_answer s qid m txt fid =
      Except.ok (Response.renderDetailTooMuch q.id
        "You can't add moore than 3 answers.", s) := by
  simp only [create_answer, hq]
  rw [if_neg h3]

theorem create_answer_eval_get (s : Store) (qid : Nat) (q : Question)
    (txt : Option String) (fid : Nat)
    (hq : getQuestionOr404 s qid = some q)
    (h3 : answer_count s q.id < 3) :
    create_answer s qid Method.get txt fid =
      Except.ok (Response.renderCreateAnswer q.id none, s) := by
  simp only [create_answer, hq]
  rw [if_pos h3]

theorem create_answer_eval_missing (s : Store) (qid : Nat) (q : Question) (fid : Nat)
    (hq : getQuestionOr404 s qid = some q)
    (h3 : answer_count s q.id < 3) :
    create_answer s qid Method.post none fid = Except.error Err.keyError := by
  simp only [create_answer, hq]
  rw [if_pos h3]

theorem create_answer_eval_blank (s : Store) (qid : Nat) (q : Question)
    (t : String) (fid : Nat)
    (hq : getQuestionOr404 s qid = some q)
    (h3 : answer_count s q.id < 3) (ht : strip t = "") :
    create_answer s qid Method.post (some t) fid =
      Except.ok (Response.renderCreateAnswer q.id
        (some "You didn't enter an answer."), s) := by
  simp only [create_answer, hq]
  rw [if_pos h3]
  show (if strip t = "" then _ else _) = _
  rw [if_pos ht]

theorem create_answer_eval_insert (s : Store) (qid : Nat) (q : Question)
    (t : String) (fid : Nat)
    (hq : getQuestionOr404 s qid = some q)
    (h3 : answer_count s q.id < 3) (ht : ¬ strip t = "") :
    create_answer s qid Method.post (some t) fid =
      Except.ok (Response.redirectDetail q.id,
        { s with choices := s.choices ++
            [{ id := fid, question_id := q.id, choice_text := t, votes := 0 }] }) := by
  simp only [create_answer, hq]
  rw [if_pos h3]
  show (if strip t = "" then _ else _) = _
  rw [if_neg ht]

/-- Claim C1: for every published question and every choice id that resolves
to a choice belonging to that question, `vote` increments exactly that
choice's stored vote count by 1, leaves every other stored vote count (in
particular every sibling choice's) unchanged, keeps the question table and
the number of choice rows as they were, and responds with a redirect to the
results view for that question. -/
theorem vote_valid_choice (s : Store) (qid cid : Nat) (q : Question) (c : Choice)
    (now : Int)
    (hwf : (s.choices.map Choice.id).Nodup)
    (_hpub : q.pub_date ≤ now)
    (hq : getQuestionOr404 s qid = some q)
    (hc : choiceSetGet s q cid = some c) :
    ∃ s2 : Store,
      vote s qid (some cid) = Except.ok (Response.redirectResults q.id, s2) ∧
      getVotes s c.id = some c.votes ∧
      getVotes s2 c.id = some (c.votes + 1) ∧
      (∀ cid2, cid2 ≠ c.id → getVotes s2 cid2 = getVotes s cid2) ∧
      s2.questions = s.questions ∧
      s2.choices.length = s.choices.length := by
  have hfind : s.choices.find? (fun x => x.id == c.id) = some c :=
    find?_key_unique Choice.id s.choices hwf c (List.mem_of_find?_eq_some hc)
  refine ⟨saveChoice s { c with votes := c.votes + 1 }, ?_, ?_, ?_, ?_, ?_, ?_⟩
  · exact vote_eval_selected s qid q (some cid) c hq hc
  · unfold getVotes
    rw [hfind]
    rfl
  · exact getVotes_saveChoice_hit s { c with votes := c.votes + 1 } c hfind
  · intro cid2 hne
    exact getVotes_saveChoice_other s { c with votes := c.votes + 1 } cid2 hne
  · rfl
  · simp [saveChoice]

/-- Witness for C1: voting for the choice "Fine" of the sample past question. -/
theorem vote_valid_choice_witness :
    ∃ s2 : Store,
      vote sampleStore 1 (some 1) = Except.ok (Response.redirectResults sampleQ1.id, s2) ∧
      getVotes sampleStore sampleC1.id = some sampleC1.votes ∧
      getVotes s2 sampleC1.id = some (sampleC1.votes + 1) ∧
      (∀ cid2, cid2 ≠ sampleC1.id → getVotes s2 cid2 = getVotes sampleStore cid2) ∧
      s2.questions = sampleStore.questions ∧
      s2.choices.length = sampleStore.choices.length :=
  vote_valid_choice sampleStore 1 1 sampleQ1 sampleC1 0
    (by decide) (by decide) (by decide) (by decide)

/-- Claim C3: for every existing question, a vote whose choice id is missing
from the input, or does not resolve to a choice belonging to that question,
performs zero mutations (the returned store is the input store unchanged)
and renders the detail view for that question with the error message
"You didn't select a choice." as an ordinary success-style render. -/
theorem vote_invalid_choice (s : Store) (qid : Nat) (q : Question)
    (choice : Option Nat)
    (hq : getQuestionOr404 s qid = some q)
    (hmiss : choice = none ∨ ∃ cid, choice = some cid ∧ choiceSetGet s q cid = none) :
    vote s qid choice =
      Except.ok (Response.renderDetail q.id (some "You didn't select a choice."), s) := by
  rcases hmiss with rfl | ⟨cid, rfl, hnone⟩
  · exact vote_eval_noChoice s qid q none hq rfl
  · exact vote_eval_noChoice s qid q (some cid) hq hnone

/-- Witness for C3: voting with the unknown choice id 5 on the sample past
question (the repository's own negative vote test). -/
theorem vote_invalid_choice_witness :
    vote sampleStore 1 (some 5) =
      Except.ok (Response.renderDetail sampleQ1.id
        (some "You didn't select a choice."), sampleStore) :=
  vote_invalid_choice sampleStore 1 sampleQ1 (some 5) (by decide)
    (Or.inr ⟨5, rfl, by decide⟩)

/-- Claim C10: for every existing question, `vote` and `create_answer`
resolve it with no publish-date filter: even when its publish timestamp is
in the future (so the detail lookup yields `none`, a 404), neither handler
ever responds NotFound, so the question can be voted on and receive choices
before it is published. -/
theorem vote_create_answer_ignore_pub_date (s : Store) (qid : Nat) (q : Question)
    (now : Int)
    (hwf : (s.questions.map Question.id).Nodup)
    (hq : getQuestionOr404 s qid = some q)
    (hfut : now < q.pub_date) :
    (∀ choice r s2, vote s qid choice = Except.ok (r, s2) → r ≠ Response.notFound) ∧
    (∀ m txt fid r s2, create_answer s qid m txt fid = Except.ok (r, s2) →
       r ≠ Response.notFound) ∧
    DetailView.get_queryset s now qid = none := by
  refine ⟨?_, ?_, ?_⟩
  · intro choice r s2 h
    rcases hbind : choice.bind (fun cid => choiceSetGet s q cid) with _ | c
    · rw [vote_eval_noChoice s qid q choice hq hbind] at h
      simp only [Except.ok.injEq, Prod.mk.injEq] at h
      rcases h with ⟨rfl, rfl⟩
      simp
    · rw [vote_eval_selected s qid q choice c hq hbind] at h
      simp only [Except.ok.injEq, Prod.mk.injEq] at h
      rcases h with ⟨rfl, rfl⟩
      simp
  · intro m txt fid r s2 h
    by_cases h3 : answer_count s q.id < 3
    · cases m with
      | get =>
        rw [create_answer_eval_get s qid q txt fid hq h3] at h
        simp only [Except.ok.injEq, Prod.mk.injEq] at h
        rcases h with ⟨rfl, rfl⟩
        simp
      | post =>
        cases txt with
        | none =>
          rw [create_answer_eval_missing s qid q fid hq h3] at h
          simp at h
        | some t =>
          by_cases ht : strip t = ""
          · rw [create_answer_eval_blank s qid q t fid hq h3 ht] at h
            simp only [Except.ok.injEq, Prod.mk.injEq] at h
            rcases h with ⟨rfl, rfl⟩
            simp
          · rw [create_answer_eval_insert s qid q t fid hq h3 ht] at h
            simp only [Except.ok.injEq, Prod.mk.injEq] at h
            rcases h with ⟨rfl, rfl⟩
            simp
    · rw [create_answer_eval_full s qid q m txt fid hq h3] at h
      simp only [Except.ok.injEq, Prod.mk.injEq] at h
      rcases h with ⟨rfl, rfl⟩
      simp
  · rw [DetailView.get_queryset, List.find?_eq_none]
    intro x hx
    rcases List.mem_filter.mp hx with ⟨hmem, hpub⟩
    intro heq
    have hxid : x.id = qid := by simpa using heq
    have hqid : q.id = qid := by simpa using List.find?_some hq
    have hqmem : q ∈ s.questions := List.mem_of_find?_eq_some hq
    have hxq : x = q :=
      eq_of_mem_key_eq Question.id s.questions hwf x q hmem hqmem (by rw [hxid, hqid])
    have : x.pub_date ≤ now := by simpa using hpub
    rw [hxq] at this
    omega

/-- Witness for C10: the sample future question (publish timestamp 30,
now 0) is votable and accepts choices, while its detail lookup is a 404. -/
theorem vote_create_answer_ignore_pub_date_witness :
    ((∀ choice r s2, vote sampleStore 2 choice = Except.ok (r, s2) →
        r ≠ Response.notFound) ∧
      (∀ m txt fid r s2, create_answer sampleStore 2 m txt fid = Except.ok (r, s2) →
        r ≠ Response.notFound) ∧
      DetailView.get_queryset sampleStore 0 2 = none) :=
  vote_create_answer_ignore_pub_date sampleStore 2 sampleQ2 0
    (by decide) (by decide) (by decide)

/-- Counterexample for C4 as stated: when the question text is absent from
the POST data, `create` does not re-render the creation form with the
message "You didn't enter a question."; `request.POST['new_question']`
raises an uncaught KeyError instead (a server error, though still no
record is created). -/
theorem create_missing_field_counterexample :
    create sampleStore Method.post none 0 9 = Except.error Err.keyError ∧
    (Except.error Err.keyError : Except Err (Response × Store)) ≠
      Except.ok (Response.renderCreate (some "You didn't enter a question."),
        sampleStore) := by
  exact ⟨rfl, by decide⟩

/-- Claim C4 (amended): a create-question POST whose text is present but
empty after trimming creates no record (the store comes back unchanged) and
re-renders the creation form with the message "You didn't enter a
question."; a POST with the text field absent instead raises an uncaught
KeyError and likewise creates no record. -/
theorem create_blank_question (s : Store) (t : String) (now : Int) (fid : Nat)
    (ht : strip t = "") :
    create s Method.post (some t) now fid =
      Except.ok (Response.renderCreate (some "You didn't enter a question."), s) ∧
    create s Method.post none now fid = Except.error Err.keyError := by
  constructor
  · simp only [create]
    rw [if_pos ht]
  · rfl

/-- Witness for C4 (amended): a whitespace-only submission on the sample
store. -/
theorem create_blank_question_witness :
    create sampleStore Method.post (some " ") 0 9 =
      Except.ok (Response.renderCreate (some "You didn't enter a question."),
        sampleStore) ∧
    create sampleStore Method.post none 0 9 = Except.error Err.keyError :=
  create_blank_question sampleStore " " 0 9 (by decide)

/-- Claim C7: a create-question POST whose text is non-empty after trimming
appends exactly one new question whose stored text is the raw (untrimmed)
input and whose publish timestamp is the current time, redirects to the
listing view, and the new question is afterwards retrievable by that text
(the by-text filter gains exactly that one row). -/
theorem create_nonempty_question (s : Store) (t : String) (now : Int) (fid : Nat)
    (ht : ¬ strip t = "") :
    ∃ q : Question,
      create s Method.post (some t) now fid =
        Except.ok (Response.redirectIndex,
          { s with questions := s.questions ++ [q] }) ∧
      q.question_text = t ∧ q.pub_date = now ∧
      questionsByText { s with questions := s.questions ++ [q] } t =
        questionsByText s t ++ [q] := by
  refine ⟨{ id := fid, question_text := t, pub_date := now }, ?_, rfl, rfl, ?_⟩
  · simp only [create]
    rw [if_neg ht]
  · unfold questionsByText
    simp [List.filter_append]

/-- Witness for C7: creating the question "How are you?" (the repository's
own creation test) on the sample store. -/
theorem create_nonempty_question_witness :
    ∃ q : Question,
      create sampleStore Method.post (some "How are you?") 0 9 =
        Except.ok (Response.redirectIndex,
          { sampleStore with questions := sampleStore.questions ++ [q] }) ∧
      q.question_text = "How are you?" ∧ q.pub_date = 0 ∧
      questionsByText { sampleStore with
          questions := sampleStore.questions ++ [q] } "How are you?" =
        questionsByText sampleStore "How are you?" ++ [q] :=
  create_nonempty_question sampleStore "How are you?" 0 9 (by decide)

/-! Further evaluation helpers for `create_answer` and `answer_count`. -/

theorem create_answer_eval_notFound (s : Store) (qid : Nat) (m : Method)
    (txt : Option String) (fid : Nat)
    (hq : getQuestionOr404 s qid = none) :
    create_answer s qid m txt fid = Except.ok (Response.notFound, s) := by
  simp only [create_answer, hq]

theorem answer_count_append (s : Store) (row : Choice) (qid2 : Nat) :
    answer_count { s with choices := s.choices ++ [row] } qid2 =
      answer_count s qid2 + (if row.question_id == qid2 then 1 else 0) := by
  unfold answer_count
  by_cases hrow : (row.question_id == qid2) = true
  · simp [List.filter_append, hrow]
  · simp [List.filter_append, hrow]

/-- Claim C2: `create_answer` keeps every question at 3 choices or fewer:
every successful run preserves the bound for every question, and when the
target question already has exactly 3 choices, every create-choice request
(any method, any input text) leaves the store unchanged and renders the
detail view with exactly the message "You can't add moore than 3 answers.",
so the choice count stays 3. -/
theorem create_answer_at_most_three (s : Store) (qid : Nat) (m : Method)
    (txt : Option String) (fid : Nat) :
    (∀ r s2, create_answer s qid m txt fid = Except.ok (r, s2) →
       ∀ qid2, answer_count s qid2 ≤ 3 → answer_count s2 qid2 ≤ 3) ∧
    (∀ q, getQuestionOr404 s qid = some q → answer_count s q.id = 3 →
       create_answer s qid m txt fid =
         Except.ok (Response.renderDetailTooMuch q.id
           "You can't add moore than 3 answers.", s) ∧
       answer_count s q.id = 3) := by
  constructor
  · intro r s2 h qid2 hb
    rcases hfind : getQuestionOr404 s qid with _ | q
    · rw [create_answer_eval_notFound s qid m txt fid hfind] at h
      simp only [Except.ok.injEq, Prod.mk.injEq] at h
      rcases h with ⟨rfl, rfl⟩
      exact hb
    · by_cases h3 : answer_count s q.id < 3
      · cases m with
        | get =>
          rw [create_answer_eval_get s qid q txt fid hfind h3] at h
          simp only [Except.ok.injEq, Prod.mk.injEq] at h
          rcases h with ⟨rfl, rfl⟩
          exact hb
        | post =>
          cases txt with
          | none =>
            rw [create_answer_eval_missing s qid q fid hfind h3] at h
            simp at h
          | some t =>
            by_cases ht : strip t = ""
            · rw [create_answer_eval_blank s qid q t fid hfind h3 ht] at h
              simp only [Except.ok.injEq, Prod.mk.injEq] at h
              rcases h with ⟨rfl, rfl⟩
              exact hb
            · rw [create_answer_eval_insert s qid q t fid hfind h3 ht] at h
              simp only [Except.ok.injEq, Prod.mk.injEq] at h
              rcases h with ⟨rfl, rfl⟩
              rw [answer_count_append]
              by_cases hqid2 : qid2 = q.id
              · subst hqid2
                simp
                omega
              · have hne : (q.id == qid2) = false := by
                  simp [Ne.symm hqid2]
                simpa [hne] using hb
      · rw [create_answer_eval_full s qid q m txt fid hfind h3] at h
        simp only [Except.ok.injEq, Prod.mk.injEq] at h
        rcases h with ⟨rfl, rfl⟩
        exact hb
  · intro q hq h3
    have h3n : ¬ answer_count s q.id < 3 := by omega
    exact ⟨create_answer_eval_full s qid q m txt fid hq h3n, h3⟩

/-- The sample question with its choice table already full (3 choices). -/
def fullStore : Store :=
  { questions := [sampleQ1],
    choices := [sampleC1, sampleC2,
      { id := 3, question_id := 1, choice_text := "Bad", votes := 0 }] }

/-- Witness for C2: a 4th creation attempt on the full sample store is
rejected with the exact message and the count stays 3. -/
theorem create_answer_at_most_three_witness :
    create_answer fullStore 1 Method.post (some "Forth answer") 9 =
      Except.ok (Response.renderDetailTooMuch sampleQ1.id
        "You can't add moore than 3 answers.", fullStore) ∧
    answer_count fullStore sampleQ1.id = 3 :=
  (create_answer_at_most_three fullStore 1 Method.post (some "Forth answer") 9).2
    sampleQ1 (by decide) (by decide)

/-- Counterexample for C8 as stated: the sample question has fewer than 3
choices, yet a form submission with the answer text absent does not
re-render the creation form with the message "You didn't enter an
answer."; `request.POST['new_answer']` raises an uncaught KeyError. -/
theorem create_answer_missing_field_counterexample :
    create_answer sampleStore 1 Method.post none 9 = Except.error Err.keyError ∧
    (Except.error Err.keyError : Except Err (Response × Store)) ≠
      Except.ok (Response.renderCreateAnswer 1
        (some "You didn't enter an answer."), sampleStore) := by
  exact ⟨by decide, by decide⟩

/-- Claim C8 (amended): for every existing question with fewer than 3
choices: a POST whose answer text is present but empty after trimming
mutates nothing and re-renders the creation form with the message "You
didn't enter an answer." for that question; a POST whose text field is
absent raises an uncaught KeyError (no mutation either); and a POST whose
text is non-empty after trimming appends exactly one choice under that
question with vote count 0 and the raw text, then redirects to the
question's detail view. -/
theorem create_answer_form_spec (s : Store) (qid : Nat) (q : Question) (fid : Nat)
    (hq : getQuestionOr404 s qid = some q)
    (h3 : answer_count s q.id < 3) :
    (∀ t : String, strip t = "" →
       create_answer s qid Method.post (some t) fid =
         Except.ok (Response.renderCreateAnswer q.id
           (some "You didn't enter an answer."), s)) ∧
    create_answer s qid Method.post none fid = Except.error Err.keyError ∧
    (∀ t : String, ¬ strip t = "" →
       create_answer s qid Method.post (some t) fid =
         Except.ok (Response.redirectDetail q.id,
           { s with choices := s.choices ++
               [{ id := fid, question_id := q.id, choice_text := t, votes := 0 }] }) ∧
       answer_count { s with choices := s.choices ++
           [{ id := fid, question_id := q.id, choice_text := t, votes := 0 }] } q.id =
         answer_count s q.id + 1) := by
  refine ⟨?_, create_answer_eval_missing s qid q fid hq h3, ?_⟩
  · intro t ht
    exact create_answer_eval_blank s qid q t fid hq h3 ht
  · intro t ht
    refine ⟨create_answer_eval_insert s qid q t fid hq h3 ht, ?_⟩
    rw [answer_count_append]
    simp

/-- Witness for C8 (amended): a blank, a missing and a real answer
submission on the sample store's past question. -/
theorem create_answer_form_spec_witness :
    create_answer sampleStore 1 Method.post (some " ") 9 =
      Except.ok (Response.renderCreateAnswer sampleQ1.id
        (some "You didn't enter an answer."), sampleStore) ∧
    create_answer sampleStore 1 Method.post none 9 = Except.error Err.keyError :=
  ⟨(create_answer_form_spec sampleStore 1 sampleQ1 9 (by decide) (by decide)).1
      " " (by decide),
    (create_answer_form_spec sampleStore 1 sampleQ1 9 (by decide) (by decide)).2.1⟩

/-! The store-level trace of the vote increment, for the concurrency claim.
`vote` (views.py lines 44 and 52-53) reads the selected choice's stored
vote count into the handler at `question.choice_set.get(...)`, computes
`votes + 1` in Python, and writes that computed value back at `save()`.
The model below runs two such requests, A and B, on the same choice:
`read` copies the stored count into the request's local object, `write`
stores back local + 1.  The atomic alternative the spec mandates
(`votes = votes + 1` as one statement) would make each request a single
indivisible increment, so any schedule of two requests would add 2. -/

/-- Shared stored count plus the two requests' handler-local copies. -/
structure RaceState where
  votes : Nat
  localA : Option Nat
  localB : Option Nat
deriving Repr, DecidableEq

/-- One store-level operation of request A or request B. -/
inductive RaceStep where
  | readA
  | writeA
  | readB
  | writeB
deriving Repr, DecidableEq

/-- The effect of one store-level operation under the code's
read-modify-write increment. -/
def stepRMW : RaceState → RaceStep → RaceState
  | st, RaceStep.readA => { st with localA := some st.votes }
  | st, RaceStep.writeA =>
      { st with votes := match st.localA with | some v => v + 1 | none => st.votes }
  | st, RaceStep.readB => { st with localB := some st.votes }
  | st, RaceStep.writeB =>
      { st with votes := match st.localB with | some v => v + 1 | none => st.votes }

/-- Run a schedule of store-level operations from stored count 0. -/
def runRMW (steps : List RaceStep) : RaceState :=
  steps.foldl stepRMW { votes := 0, localA := none, localB := none }

/-- Claim C9 (the code violates it): the increment in `vote` is
`selected_choice.votes += 1` followed by `save()` - a read-modify-write
through the handler, not a single atomic store-level update.  Run
sequentially, two votes add 2; but the interleaving A-read, B-read,
A-write, B-write of the same two requests ends with a stored count of 1:
one vote is lost, which the atomic update the claim describes would make
impossible. -/
theorem vote_increment_lost_update :
    (runRMW [RaceStep.readA, RaceStep.writeA,
      RaceStep.readB, RaceStep.writeB]).votes = 2 ∧
    (runRMW [RaceStep.readA, RaceStep.readB,
      RaceStep.writeA, RaceStep.writeB]).votes = 1 := by
  decide

end Polls
